import Mathlib

/-!
Shallow embedding of the weblog sessionization and aggregation pipeline
(src/src/driver.py).  Timestamps are calendar records; datasets are lists of
rows; Spark groupBy/agg is modelled by grouping on deduplicated keys; Spark's
`orderBy(..., ascending=False)` is modelled by a structural insertion sort.
All definitions are executable so that concrete scenarios evaluate by `decide`.
-/

namespace Weblog

/-- A timestamp with second precision, as produced by casting the log's
timestamp column. -/
structure Timestamp where
  year : Nat
  month : Nat
  day : Nat
  hour : Nat
  minute : Nat
  second : Nat
deriving DecidableEq, Repr

/-- Days since the epoch of 0000-03-01 in the proleptic Gregorian calendar
(Hinnant's civil-date algorithm, restricted to CE years); used to model the
`cast('long')` epoch-seconds view of a timestamp. -/
def daysFromCivil (y m d : Nat) : Nat :=
  let y2 := if m ≤ 2 then y - 1 else y
  let era := y2 / 400
  let yoe := y2 % 400
  let doy := (153 * (if 2 < m then m - 3 else m + 9) + 2) / 5 + d - 1
  let doe := yoe * 365 + yoe / 4 - yoe / 100 + doy
  era * 146097 + doe

/-- Epoch seconds of a timestamp (models `col.cast('long')`). -/
def Timestamp.toSec (t : Timestamp) : Nat :=
  daysFromCivil t.year t.month t.day * 86400 + t.hour * 3600 + t.minute * 60 + t.second

/-- Zero-padded two-digit rendering, as strftime's %m/%d/%H produce. -/
def pad2 (n : Nat) : String :=
  if n < 10 then "0" ++ toString n else toString n

/-- Zero-padded four-digit rendering, as strftime's %Y produces for CE years. -/
def pad4 (n : Nat) : String :=
  if n < 10 then "000" ++ toString n
  else if n < 100 then "00" ++ toString n
  else if n < 1000 then "0" ++ toString n
  else toString n

/-- The start/end block labels chosen by the branch ladder in `getSessionId`
(driver.py lines 17-29), as a function of clock minute and second. -/
def sessionBlocks (minute second : Nat) : String × String :=
  if (0 ≤ minute ∧ minute ≤ 14) ∨ (minute = 15 ∧ second = 0) then
    ("00", "15")
  else if (minute = 15 ∧ second > 0) ∨ (16 ≤ minute ∧ minute ≤ 29) ∨ (minute = 30 ∧ second = 0) then
    ("16", "30")
  else if (minute = 30 ∧ second > 0) ∨ (31 ≤ minute ∧ minute ≤ 44) ∨ (minute = 45 ∧ second = 0) then
    ("31", "45")
  else
    ("46", "60")

/-- Replace every '.' by '-' in a string (models `ip.replace(".", "-")` for the
single-character pattern used by the driver). -/
def dotToDash (s : String) : String :=
  String.mk (s.data.map (fun c => if c = '.' then '-' else c))

/-- The session-id UDF: `yyyyMMdd-HH-<start><end>-<ip with dashes>`
(driver.py lines 31-34). -/
def getSessionId (ts : Timestamp) (ip : String) : String :=
  pad4 ts.year ++ pad2 ts.month ++ pad2 ts.day ++ "-" ++ pad2 ts.hour ++ "-" ++
    (sessionBlocks ts.minute ts.second).1 ++ (sessionBlocks ts.minute ts.second).2 ++ "-" ++
    dotToDash ip

/-- Split a character list at every occurrence of `c`, keeping empty pieces
(the semantics of Spark's `split` with a single-character literal pattern). -/
def splitChar (c : Char) : List Char → List (List Char)
  | [] => [[]]
  | x :: xs =>
    if x = c then [] :: splitChar c xs
    else
      match splitChar c xs with
      | [] => [[x]]
      | y :: ys => (x :: y) :: ys

/-- Split a string at every occurrence of character `c`. -/
def splitOnChar (c : Char) (s : String) : List String :=
  (splitChar c s.data).map String.mk

/-- One parsed log line, restricted to the columns the pipeline reads. -/
structure LogEvent where
  timestamp : Timestamp
  client_port : String
  request : String
  user_agent : String
deriving DecidableEq, Repr

/-- `f.split(baseDF['client_port'], ':').getItem(0)` (driver.py line 63). -/
def extractIp (client_port : String) : String :=
  (splitOnChar ':' client_port).headD ""

/-- A row of the cached `baseDF` after the ip and session_id columns are added
(driver.py lines 62-64). -/
structure TaggedEvent where
  timestamp : Timestamp
  ip : String
  session_id : String
  request : String
  user_agent : String
deriving DecidableEq, Repr

/-- Add the derived ip and session_id columns to one event. -/
def tagEvent (e : LogEvent) : TaggedEvent :=
  { timestamp := e.timestamp
    ip := extractIp e.client_port
    session_id := getSessionId e.timestamp (extractIp e.client_port)
    request := e.request
    user_agent := e.user_agent }

/-- The cached session-tagged dataset (driver.py lines 62-64). -/
def baseDF (events : List LogEvent) : List TaggedEvent :=
  events.map tagEvent

/-- The distinct grouping keys of a dataset, in first-appearance order. -/
def groupKeys {α κ : Type} [DecidableEq κ] (key : α → κ) (l : List α) : List κ :=
  (l.map key).dedup

/-- Spark `groupBy(key).agg(agg)`: one output row per distinct key, carrying the
aggregate of the rows with that key. -/
def groupRows {α κ β : Type} [DecidableEq κ] (key : α → κ) (agg : List α → β)
    (l : List α) : List (κ × β) :=
  (groupKeys key l).map (fun k => (k, agg (l.filter (fun e => decide (key e = k)))))

/-- Insert into a list sorted by the boolean relation `le` (stable). -/
def insertSorted {α : Type} (le : α → α → Bool) (x : α) : List α → List α
  | [] => [x]
  | y :: ys => if le x y then x :: y :: ys else y :: insertSorted le x ys

/-- Insertion sort by the boolean relation `le`; models `orderBy`. -/
def sortBy {α : Type} (le : α → α → Bool) (l : List α) : List α :=
  l.foldr (insertSorted le) []

/-- Largest element of a list of integers (groups are never empty). -/
def listMax : List Int → Int
  | [] => 0
  | x :: xs => xs.foldl max x

/-- Smallest element of a list of integers (groups are never empty). -/
def listMin : List Int → Int
  | [] => 0
  | x :: xs => xs.foldl min x

/-- The epoch-seconds column of a group of tagged events. -/
def secsOf (g : List TaggedEvent) : List Int :=
  g.map (fun e => (e.timestamp.toSec : Int))

/-- Query 1, `sessionStatsDF` (driver.py lines 69-73): hits per (ip, session),
sorted by total_hits descending.  Rows are (ip, session_id, total_hits). -/
def sessionStatsDF (events : List LogEvent) : List (String × String × Nat) :=
  sortBy (fun a b => Nat.ble b.2.2 a.2.2)
    ((groupRows (fun e : TaggedEvent => (e.ip, e.session_id)) List.length
        (baseDF events)).map (fun r => (r.1.1, r.1.2, r.2)))

/-- Stage 1 of query 2 (driver.py lines 95-99): per (ip, session_id), the
max/min timestamp difference in seconds.  Rows are ((ip, session_id), duration_sec). -/
def avgSessionStage1 (events : List LogEvent) : List ((String × String) × Int) :=
  groupRows (fun e : TaggedEvent => (e.ip, e.session_id))
    (fun g => listMax (secsOf g) - listMin (secsOf g))
    (baseDF events)

/-- A row of query 2's final output. -/
structure AvgRow where
  ip : String
  total_sessions : Nat
  total_duration_sec : Int
  avg_session_time_in_min : ℚ
deriving DecidableEq, Repr

/-- Query 2, `avgSessionStatsDF` (driver.py lines 100-105): per ip, the session
count, total duration, and average session minutes, sorted descending. -/
def avgSessionStatsDF (events : List LogEvent) : List AvgRow :=
  sortBy (fun a b => decide (b.avg_session_time_in_min ≤ a.avg_session_time_in_min))
    ((groupRows (fun r : (String × String) × Int => r.1.1)
        (fun g => (g.length, (g.map (fun r => r.2)).sum))
        (avgSessionStage1 events)).map
      (fun r =>
        { ip := r.1
          total_sessions := r.2.1
          total_duration_sec := r.2.2
          avg_session_time_in_min := ((r.2.2 : ℚ) / 60) / (r.2.1 : ℚ) }))

/-! ### SHA-256 (models `f.sha2(col, 256)`, which returns the lowercase hex digest
of the UTF-8 bytes of the column value) -/

/-- 2^32, the word modulus of SHA-256. -/
def M32 : Nat := 4294967296

/-- Rotate the 32-bit word `x` right by `n` bit positions. -/
def rotr (n x : Nat) : Nat :=
  ((x >>> n) ||| (x <<< (32 - n))) % M32

/-- Bitwise complement of a 32-bit word. -/
def not32 (x : Nat) : Nat :=
  Nat.xor x (M32 - 1)

/-- SHA-256 choice function. -/
def ch (e f g : Nat) : Nat :=
  Nat.xor (Nat.land e f) (Nat.land (not32 e) g)

/-- SHA-256 majority function. -/
def maj (a b c : Nat) : Nat :=
  Nat.xor (Nat.xor (Nat.land a b) (Nat.land a c)) (Nat.land b c)

/-- The upper-case sigma-0 mixing function of the compression loop. -/
def sigU0 (x : Nat) : Nat := Nat.xor (Nat.xor (rotr 2 x) (rotr 13 x)) (rotr 22 x)

/-- The upper-case sigma-1 mixing function of the compression loop. -/
def sigU1 (x : Nat) : Nat := Nat.xor (Nat.xor (rotr 6 x) (rotr 11 x)) (rotr 25 x)

/-- The lower-case sigma-0 mixing function of the message schedule. -/
def sigL0 (x : Nat) : Nat := Nat.xor (Nat.xor (rotr 7 x) (rotr 18 x)) (x >>> 3)

/-- The lower-case sigma-1 mixing function of the message schedule. -/
def sigL1 (x : Nat) : Nat := Nat.xor (Nat.xor (rotr 17 x) (rotr 19 x)) (x >>> 10)

/-- The 64 SHA-256 round constants, in decimal. -/
def K256 : List Nat :=
  [1116352408, 1899447441, 3049323471, 3921009573, 961987163,
   1508970993, 2453635748, 2870763221, 3624381080, 310598401,
   607225278, 1426881987, 1925078388, 2162078206, 2614888103,
   3248222580, 3835390401, 4022224774, 264347078, 604807628,
   770255983, 1249150122, 1555081692, 1996064986, 2554220882,
   2821834349, 2952996808, 3210313671, 3336571891, 3584528711,
   113926993, 338241895, 666307205, 773529912, 1294757372,
   1396182291, 1695183700, 1986661051, 2177026350, 2456956037,
   2730485921, 2820302411, 3259730800, 3345764771, 3516065817,
   3600352804, 4094571909, 275423344, 430227734, 506948616,
   659060556, 883997877, 958139571, 1322822218, 1537002063,
   1747873779, 1955562222, 2024104815, 2227730452, 2361852424,
   2428436474, 2756734187, 3204031479, 3329325298]

/-- The eight initial SHA-256 hash words, in decimal. -/
def H256 : List Nat :=
  [1779033703, 3144134277, 1013904242, 2773480762, 1359893119,
   2600822924, 528734635, 1541459225]

/-- Big-endian byte rendering of `n` on `k` bytes. -/
def toBytesBE : Nat → Nat → List Nat
  | 0, _ => []
  | k + 1, n => toBytesBE k (n / 256) ++ [n % 256]

/-- Pack a byte list into big-endian 32-bit words. -/
def bytesToWords : List Nat → List Nat
  | a :: b :: c :: d :: rest => (((a * 256 + b) * 256 + c) * 256 + d) :: bytesToWords rest
  | _ => []

/-- SHA-256 padding: append 0x80, zeros, and the 64-bit big-endian bit length,
up to a multiple of 64 bytes. -/
def sha256pad (msg : List Nat) : List Nat :=
  msg ++ [0x80] ++ List.replicate ((119 - msg.length % 64) % 64) 0 ++
    toBytesBE 8 (msg.length * 8)

/-- Extend 16 message words to the 64-entry SHA-256 message schedule. -/
def schedule (w : List Nat) : List Nat :=
  (List.range 48).foldl
    (fun ws _ =>
      let n := ws.length
      ws ++ [(sigL1 (ws.getD (n - 2) 0) + ws.getD (n - 7) 0 +
              sigL0 (ws.getD (n - 15) 0) + ws.getD (n - 16) 0) % M32])
    w

/-- Working state of the SHA-256 compression loop. -/
structure H8 where
  a : Nat
  b : Nat
  c : Nat
  d : Nat
  e : Nat
  f : Nat
  g : Nat
  h : Nat

/-- One SHA-256 compression round with round constant `k` and schedule word `w`. -/
def round256 (s : H8) (kw : Nat × Nat) : H8 :=
  let t1 := (s.h + sigU1 s.e + ch s.e s.f s.g + kw.1 + kw.2) % M32
  let t2 := (sigU0 s.a + maj s.a s.b s.c) % M32
  ⟨(t1 + t2) % M32, s.a, s.b, s.c, (s.d + t1) % M32, s.e, s.f, s.g⟩

/-- Process one 64-byte block, updating the eight hash words. -/
def processBlock (hs : List Nat) (block : List Nat) : List Nat :=
  let ws := schedule (bytesToWords block)
  let s0 : H8 := ⟨hs.getD 0 0, hs.getD 1 0, hs.getD 2 0, hs.getD 3 0,
                  hs.getD 4 0, hs.getD 5 0, hs.getD 6 0, hs.getD 7 0⟩
  let s := (K256.zip ws).foldl round256 s0
  [(s0.a + s.a) % M32, (s0.b + s.b) % M32, (s0.c + s.c) % M32, (s0.d + s.d) % M32,
   (s0.e + s.e) % M32, (s0.f + s.f) % M32, (s0.g + s.g) % M32, (s0.h + s.h) % M32]

/-- Cut a byte list into `k` chunks of 64 bytes. -/
def chunks64 : Nat → List Nat → List (List Nat)
  | 0, _ => []
  | k + 1, l => l.take 64 :: chunks64 k (l.drop 64)

/-- SHA-256 digest (32 bytes) of a byte list. -/
def sha256bytes (msg : List Nat) : List Nat :=
  let p := sha256pad msg
  ((chunks64 (p.length / 64) p).foldl processBlock H256).flatMap (toBytesBE 4)

/-- UTF-8 encoding of one character. -/
def utf8Char (c : Char) : List Nat :=
  let n := c.toNat
  if n < 128 then [n]
  else if n < 2048 then [192 ||| (n >>> 6), 128 ||| (Nat.land n 63)]
  else if n < 65536 then
    [224 ||| (n >>> 12), 128 ||| (Nat.land (n >>> 6) 63), 128 ||| (Nat.land n 63)]
  else
    [240 ||| (n >>> 18), 128 ||| (Nat.land (n >>> 12) 63),
     128 ||| (Nat.land (n >>> 6) 63), 128 ||| (Nat.land n 63)]

/-- UTF-8 bytes of a string. -/
def strBytes (s : String) : List Nat :=
  s.data.flatMap utf8Char

/-- Lowercase hex digit. -/
def hexDigit (n : Nat) : Char :=
  if n < 10 then Char.ofNat (48 + n) else Char.ofNat (87 + n)

/-- Lowercase hex rendering of one byte. -/
def byteHex (b : Nat) : List Char :=
  [hexDigit (b / 16), hexDigit (b % 16)]

/-- Lowercase hex SHA-256 digest of a string, the value of `f.sha2(col, 256)`. -/
def sha256hex (s : String) : String :=
  String.mk ((sha256bytes (strBytes s)).flatMap byteHex)

/-- The derived user key `ip_<sha256(user_agent)>` (driver.py line 156). -/
def userKey (e : TaggedEvent) : String :=
  e.ip ++ "_" ++ sha256hex e.user_agent

/-- Query 4, `mostEngaugedDF` (driver.py lines 155-160): per (user, session),
the session duration in minutes, sorted descending.
Rows are (user, session_id, duration_min). -/
def mostEngaugedDF (events : List LogEvent) : List (String × String × ℚ) :=
  sortBy (fun a b => decide (b.2.2 ≤ a.2.2))
    ((groupRows (fun e : TaggedEvent => (userKey e, e.session_id))
        (fun g => ((listMax (secsOf g) - listMin (secsOf g) : Int) : ℚ) / 60)
        (baseDF events)).map (fun r => (r.1.1, r.1.2, r.2)))

/-- `f.split("request", " ").getItem(1)` (driver.py line 128): the second
whitespace token of the request, null (`none`) when it does not exist. -/
def extractUrl (request : String) : Option String :=
  (splitOnChar ' ' request)[1]?

/-- Query 3, `uniqueURLDF` (driver.py lines 127-130): distinct non-null URLs
per session, sorted descending.  Rows are (session_id, num_unique_hits);
`countDistinct` ignores null values. -/
def uniqueURLDF (events : List LogEvent) : List (String × Nat) :=
  sortBy (fun a b => Nat.ble b.2 a.2)
    (groupRows (fun e : TaggedEvent => e.session_id)
      (fun g => ((g.filterMap (fun e => extractUrl e.request)).dedup).length)
      (baseDF events))

/-! ### Concrete sample events used by the scenario claims and witnesses -/

/-- First event of the end-to-end scenario: ip 10.0.0.1 at 2015-07-22 06:05:00. -/
def sampleA : LogEvent :=
  ⟨⟨2015, 7, 22, 6, 5, 0⟩, "10.0.0.1:54635", "GET http://a/ HTTP/1.1", "Mozilla/5.0"⟩

/-- Second event of the end-to-end scenario: ip 10.0.0.1 at 2015-07-22 06:05:30. -/
def sampleB : LogEvent :=
  ⟨⟨2015, 7, 22, 6, 5, 30⟩, "10.0.0.1:54636", "GET http://b/ HTTP/1.1", "Mozilla/5.0"⟩

/-- Third event of the end-to-end scenario: ip 10.0.0.1 at 2015-07-22 06:20:00. -/
def sampleC : LogEvent :=
  ⟨⟨2015, 7, 22, 6, 20, 0⟩, "10.0.0.1:54637", "GET http://a/ HTTP/1.1", "Mozilla/5.0"⟩

/-- A copy of `sampleB` with a different user agent. -/
def sampleB2 : LogEvent :=
  ⟨⟨2015, 7, 22, 6, 5, 30⟩, "10.0.0.1:54636", "GET http://b/ HTTP/1.1", "curl/7.38.0"⟩

/-- An event whose request line has a single whitespace token. -/
def sampleMalformed : LogEvent :=
  ⟨⟨2015, 7, 22, 6, 5, 40⟩, "10.0.0.1:54638", "badrequest", "Mozilla/5.0"⟩

/-- Five events in one session window, all requesting the same URL. -/
def sameUrlEvents : List LogEvent :=
  [⟨⟨2015, 7, 22, 6, 5, 0⟩, "10.0.0.1:1", "GET http://u/ HTTP/1.1", "m"⟩,
   ⟨⟨2015, 7, 22, 6, 5, 1⟩, "10.0.0.1:2", "GET http://u/ HTTP/1.1", "m"⟩,
   ⟨⟨2015, 7, 22, 6, 5, 2⟩, "10.0.0.1:3", "GET http://u/ HTTP/1.1", "m"⟩,
   ⟨⟨2015, 7, 22, 6, 5, 3⟩, "10.0.0.1:4", "GET http://u/ HTTP/1.1", "m"⟩,
   ⟨⟨2015, 7, 22, 6, 5, 4⟩, "10.0.0.1:5", "GET http://u/ HTTP/1.1", "m"⟩]

/-- Five events in one session window with five distinct URLs. -/
def distinctUrlEvents : List LogEvent :=
  [⟨⟨2015, 7, 22, 6, 5, 0⟩, "10.0.0.1:1", "GET http://u1/ HTTP/1.1", "m"⟩,
   ⟨⟨2015, 7, 22, 6, 5, 1⟩, "10.0.0.1:2", "GET http://u2/ HTTP/1.1", "m"⟩,
   ⟨⟨2015, 7, 22, 6, 5, 2⟩, "10.0.0.1:3", "GET http://u3/ HTTP/1.1", "m"⟩,
   ⟨⟨2015, 7, 22, 6, 5, 3⟩, "10.0.0.1:4", "GET http://u4/ HTTP/1.1", "m"⟩,
   ⟨⟨2015, 7, 22, 6, 5, 4⟩, "10.0.0.1:5", "GET http://u5/ HTTP/1.1", "m"⟩]

/-! ### Generic lemmas about the embedding's grouping and sorting machinery -/

theorem insertSorted_perm {α : Type} (le : α → α → Bool) (x : α) (l : List α) :
    (insertSorted le x l).Perm (x :: l) := by
  induction l with
  | nil => simp [insertSorted]
  | cons y ys ih =>
    simp only [insertSorted]
    split
    · exact List.Perm.refl _
    · exact (ih.cons y).trans (List.Perm.swap x y ys)

theorem sortBy_perm {α : Type} (le : α → α → Bool) (l : List α) :
    (sortBy le l).Perm l := by
  induction l with
  | nil => simp [sortBy]
  | cons x xs ih =>
    simpa [sortBy] using (insertSorted_perm le x (sortBy le xs)).trans (ih.cons x)

theorem mem_sortBy {α : Type} {le : α → α → Bool} {l : List α} {a : α} :
    a ∈ sortBy le l ↔ a ∈ l :=
  (sortBy_perm le l).mem_iff

theorem mem_groupRows {α κ β : Type} [DecidableEq κ] {key : α → κ} {agg : List α → β}
    {l : List α} {r : κ × β} :
    r ∈ groupRows key agg l ↔
      r.1 ∈ (l.map key).dedup ∧ r.2 = agg (l.filter (fun e => decide (key e = r.1))) := by
  constructor
  · intro h
    obtain ⟨k, hk, he⟩ := List.mem_map.1 h
    cases he
    exact ⟨hk, rfl⟩
  · intro ⟨h1, h2⟩
    refine List.mem_map.2 ⟨r.1, h1, ?_⟩
    cases r
    simp_all

theorem groupRows_mem_of_key {α κ β : Type} [DecidableEq κ] {key : α → κ} {agg : List α → β}
    {l : List α} {k : κ} (h : k ∈ l.map key) :
    (k, agg (l.filter (fun e => decide (key e = k)))) ∈ groupRows key agg l :=
  List.mem_map.2 ⟨k, List.mem_dedup.2 h, rfl⟩

theorem length_filter_key {α κ : Type} [DecidableEq κ] (key : α → κ) (l : List α) (k : κ) :
    (l.filter (fun e => decide (key e = k))).length = (l.map key).countP (fun x => decide (x = k)) := by
  induction l with
  | nil => simp
  | cons x xs ih =>
    by_cases h : key x = k <;>
      simp [List.filter_cons, List.count_cons, h, ih]

theorem filter_key_pos {α κ : Type} [DecidableEq κ] {key : α → κ} {l : List α} {k : κ}
    (h : k ∈ l.map key) :
    0 < (l.filter (fun e => decide (key e = k))).length := by
  obtain ⟨e, he, hk⟩ := List.mem_map.1 h
  exact List.length_pos_of_mem (List.mem_filter.2 ⟨he, by simp [hk]⟩)

theorem sum_groupRows_length {α κ : Type} [DecidableEq κ] (key : α → κ) (l : List α) :
    ((groupRows key List.length l).map (fun r => r.2)).sum = l.length := by
  have hmap : (groupRows key List.length l).map (fun r => r.2) =
      (l.map key).dedup.map (fun k => (l.map key).count k) := by
    simp only [groupRows, groupKeys, List.map_map]
    exact List.map_congr_left (fun k _ => length_filter_key key l k)
  rw [hmap, List.sum_map_count_dedup_eq_length, List.length_map]

theorem snd_mem_filter_fst {κ₁ κ₂ : Type} [DecidableEq κ₁] [DecidableEq κ₂]
    {m : List (κ₁ × κ₂)} {a : κ₁} {s : κ₂} :
    s ∈ (m.filter (fun k => decide (k.1 = a))).map Prod.snd ↔ (a, s) ∈ m := by
  simp only [List.mem_map, List.mem_filter, decide_eq_true_eq]
  constructor
  · intro ⟨k, ⟨hk, ha⟩, hs⟩
    cases k
    cases ha
    cases hs
    exact hk
  · intro h
    exact ⟨(a, s), ⟨h, rfl⟩, rfl⟩

theorem dedup_filter_fst_length {κ₁ κ₂ : Type} [DecidableEq κ₁] [DecidableEq κ₂]
    (m : List (κ₁ × κ₂)) (a : κ₁) :
    (m.dedup.filter (fun k => decide (k.1 = a))).length =
      ((m.filter (fun k => decide (k.1 = a))).map Prod.snd).dedup.length := by
  induction m with
  | nil => simp
  | cons p ps ih =>
    by_cases hmem : p ∈ ps
    · rw [List.dedup_cons_of_mem hmem]
      by_cases ha : p.1 = a
      · have hsnd : p.2 ∈ (ps.filter (fun k => decide (k.1 = a))).map Prod.snd := by
          rw [snd_mem_filter_fst]
          cases p
          cases ha
          exact hmem
        rw [List.filter_cons_of_pos (by simp [ha]), List.map_cons,
          List.dedup_cons_of_mem hsnd]
        exact ih
      · rw [List.filter_cons_of_neg (by simp [ha])]
        exact ih
    · rw [List.dedup_cons_of_not_mem hmem]
      by_cases ha : p.1 = a
      · have hsnd : p.2 ∉ (ps.filter (fun k => decide (k.1 = a))).map Prod.snd := by
          rw [snd_mem_filter_fst]
          intro hc
          apply hmem
          cases p
          cases ha
          exact hc
        rw [List.filter_cons_of_pos (by simp [ha]),
          List.filter_cons_of_pos (by simp [ha]), List.map_cons,
          List.dedup_cons_of_not_mem hsnd, List.length_cons, List.length_cons, ih]
      · rw [List.filter_cons_of_neg (by simp [ha]),
          List.filter_cons_of_neg (by simp [ha])]
        exact ih

/-! ### Claim theorems -/

/-- C1: the Session Assigner maps (minute, second) to exactly one of four
buckets with edge-inclusive boundaries: the boundary second belongs to the
preceding bucket and the boundary minute's non-zero seconds belong to the
following bucket; in particular 15:00 is bucket 00-15, 15:01 is bucket 16-30,
and 59:59 is bucket 46-60. -/
theorem sessionBlocks_boundaries (m s : Nat) (hm : m < 60) (hs : s < 60) :
    (sessionBlocks m s = ("00", "15") ∨ sessionBlocks m s = ("16", "30") ∨
      sessionBlocks m s = ("31", "45") ∨ sessionBlocks m s = ("46", "60")) ∧
    (m ≤ 14 ∨ (m = 15 ∧ s = 0) → sessionBlocks m s = ("00", "15")) ∧
    ((m = 15 ∧ 0 < s) ∨ (16 ≤ m ∧ m ≤ 29) ∨ (m = 30 ∧ s = 0) →
      sessionBlocks m s = ("16", "30")) ∧
    ((m = 30 ∧ 0 < s) ∨ (31 ≤ m ∧ m ≤ 44) ∨ (m = 45 ∧ s = 0) →
      sessionBlocks m s = ("31", "45")) ∧
    ((m = 45 ∧ 0 < s) ∨ (46 ≤ m ∧ m ≤ 59) → sessionBlocks m s = ("46", "60")) ∧
    sessionBlocks 15 0 = ("00", "15") ∧ sessionBlocks 15 1 = ("16", "30") ∧
    sessionBlocks 59 59 = ("46", "60") := by
  refine ⟨?_, ?_, ?_, ?_, ?_, by decide, by decide, by decide⟩
  · unfold sessionBlocks
    split_ifs <;>
      first
        | exact Or.inl rfl
        | exact Or.inr (Or.inl rfl)
        | exact Or.inr (Or.inr (Or.inl rfl))
        | exact Or.inr (Or.inr (Or.inr rfl))
  all_goals
    unfold sessionBlocks
    split_ifs with h1 h2 h3 <;> intro hc <;> first | rfl | (exfalso; omega)

/-- Witness for C1: minute 15, second 1 lands in bucket 16-30. -/
theorem sessionBlocks_boundaries_witness : sessionBlocks 15 1 = ("16", "30") :=
  (sessionBlocks_boundaries 15 1 (by decide) (by decide)).2.2.1
    (Or.inl ⟨rfl, by decide⟩)

/-- C2: every SessionId has the form YYYYMMDD-HH-SSEE-ip-with-dashes, where
(SS, EE) is the two-digit start/end label pair of the event's 15-minute bucket
(one of 00-15, 16-30, 31-45, 46-60) and the ip part replaces every '.' by '-'. -/
theorem getSessionId_format (ts : Timestamp) (ip : String) :
    ∃ ss ee : String,
      (ss, ee) = sessionBlocks ts.minute ts.second ∧
      ((ss, ee) = ("00", "15") ∨ (ss, ee) = ("16", "30") ∨
        (ss, ee) = ("31", "45") ∨ (ss, ee) = ("46", "60")) ∧
      getSessionId ts ip =
        pad4 ts.year ++ pad2 ts.month ++ pad2 ts.day ++ "-" ++ pad2 ts.hour ++ "-" ++
          ss ++ ee ++ "-" ++
          String.mk (ip.data.map (fun c => if c = '.' then '-' else c)) := by
  refine ⟨(sessionBlocks ts.minute ts.second).1, (sessionBlocks ts.minute ts.second).2,
    Prod.mk.eta.symm ▸ rfl, ?_, rfl⟩
  unfold sessionBlocks
  split_ifs <;> simp

/-- C3: the end-to-end scenario: three events for client IP 10.0.0.1 at
2015-07-22 06:05:00, 06:05:30 and 06:20:00 produce exactly the two hit-count
rows (10.0.0.1, 20150722-06-0015-10-0-0-1, 2) and
(10.0.0.1, 20150722-06-1630-10-0-0-1, 1). -/
theorem hitCount_endToEnd :
    sessionStatsDF [sampleA, sampleB, sampleC] =
      [("10.0.0.1", "20150722-06-0015-10-0-0-1", 2),
       ("10.0.0.1", "20150722-06-1630-10-0-0-1", 1)] := by
  decide

/-- C4: the Hit-Count Aggregator groups by (ip, session_id), each row's
total_hits is the number of events in its group, and the total_hits of all
rows sum to the number of input events. -/
theorem hitCount_groups (events : List LogEvent) :
    (∀ r ∈ sessionStatsDF events,
        r.2.2 = ((baseDF events).filter
          (fun e => e.ip == r.1 && e.session_id == r.2.1)).length) ∧
    ((sessionStatsDF events).map (fun r => r.2.2)).sum = events.length := by
  constructor
  · intro r hr
    obtain ⟨p, hp, hpr⟩ := List.mem_map.1 (mem_sortBy.1 hr)
    obtain ⟨hk, hv⟩ := mem_groupRows.1 hp
    subst hpr
    simp only [hv]
    congr 1
    apply List.filter_congr
    intro e _
    rcases p with ⟨⟨a, b⟩, n⟩
    rw [Bool.eq_iff_iff]
    simp [beq_iff_eq, Prod.mk.injEq, Prod.ext_iff, and_comm]
  · have hperm :
        ((sessionStatsDF events).map (fun r => r.2.2)).Perm
          (((groupRows (fun e : TaggedEvent => (e.ip, e.session_id)) List.length
              (baseDF events)).map (fun r => (r.1.1, r.1.2, r.2))).map
            (fun r => r.2.2)) :=
      (sortBy_perm _ _).map _
    rw [hperm.sum_eq, List.map_map]
    have : ((fun r : String × String × Nat => r.2.2) ∘
        (fun r : (String × String) × Nat => (r.1.1, r.1.2, r.2))) =
        (fun r : (String × String) × Nat => r.2) := rfl
    rw [this, sum_groupRows_length]
    show (events.map tagEvent).length = events.length
    exact List.length_map events tagEvent

/-- Witness for C4: on the three-event scenario the row counts sum to 3 and the
top row counts its own group. -/
theorem hitCount_groups_witness :
    ((sessionStatsDF [sampleA, sampleB, sampleC]).map (fun r => r.2.2)).sum = 3 ∧
    (2 : Nat) = (((baseDF [sampleA, sampleB, sampleC]).filter
      (fun e => e.ip == "10.0.0.1" && e.session_id == "20150722-06-0015-10-0-0-1")).length) :=
  ⟨(hitCount_groups [sampleA, sampleB, sampleC]).2,
   (hitCount_groups [sampleA, sampleB, sampleC]).1
     ("10.0.0.1", "20150722-06-0015-10-0-0-1", 2) (by decide)⟩

theorem stage1_count_distinct (events : List LogEvent) (a : String) :
    ((avgSessionStage1 events).filter (fun p => decide (p.1.1 = a))).length =
      (((baseDF events).filter (fun e => decide (e.ip = a))).map
        (fun e => e.session_id)).dedup.length := by
  simp only [avgSessionStage1, groupRows, groupKeys, List.filter_map, List.length_map,
    Function.comp_def]
  rw [dedup_filter_fst_length]
  rw [List.filter_map, List.map_map]
  simp [Function.comp_def]

/-- C5: the Session-Duration Aggregator computes per (ip, session_id) a
duration_sec equal to max minus min timestamp in whole seconds (0 for a
single-event session), and per ip emits total_sessions = the number of distinct
session_ids of that ip, total_duration_sec = the sum of the per-session
durations, and avg_session_time_min = (total_duration_sec / 60) /
total_sessions, which for an ip with exactly one session equals
duration_sec / 60. -/
theorem avgSession_correct (events : List LogEvent) :
    (∀ p ∈ avgSessionStage1 events,
        p.2 = listMax (secsOf ((baseDF events).filter
                (fun e => decide ((e.ip, e.session_id) = p.1)))) -
              listMin (secsOf ((baseDF events).filter
                (fun e => decide ((e.ip, e.session_id) = p.1)))) ∧
        (((baseDF events).filter
            (fun e => decide ((e.ip, e.session_id) = p.1))).length = 1 → p.2 = 0)) ∧
    (∀ r ∈ avgSessionStatsDF events,
        r.total_sessions =
          (((baseDF events).filter (fun e => decide (e.ip = r.ip))).map
            (fun e => e.session_id)).dedup.length ∧
        r.total_duration_sec =
          (((avgSessionStage1 events).filter (fun p => decide (p.1.1 = r.ip))).map
            (fun p => p.2)).sum ∧
        r.avg_session_time_in_min =
          ((r.total_duration_sec : ℚ) / 60) / (r.total_sessions : ℚ) ∧
        (r.total_sessions = 1 →
          r.avg_session_time_in_min = (r.total_duration_sec : ℚ) / 60)) := by
  constructor
  · intro p hp
    obtain ⟨hk, hv⟩ := mem_groupRows.1 hp
    refine ⟨hv, ?_⟩
    intro hlen
    obtain ⟨e, he⟩ := List.length_eq_one.1 hlen
    rw [hv, he]
    simp [secsOf, listMax, listMin]
  · intro r hr
    obtain ⟨q, hq, hqr⟩ := List.mem_map.1 (mem_sortBy.1 hr)
    obtain ⟨hk, hv⟩ := mem_groupRows.1 hq
    subst hqr
    refine ⟨?_, ?_, rfl, ?_⟩
    · show q.2.1 = _
      rw [hv]
      exact stage1_count_distinct events q.1
    · show q.2.2 = _
      rw [hv]
    · intro hone
      show ((q.2.2 : ℚ) / 60) / (q.2.1 : ℚ) = (q.2.2 : ℚ) / 60
      have h1 : q.2.1 = 1 := hone
      rw [h1]
      norm_num

-- Witness for C5: applies the theorem to the three-event scenario's output row.
unseal Rat.mul Rat.inv Rat.add Rat.sub in
theorem avgSession_correct_witness :
    ({ ip := "10.0.0.1", total_sessions := 2, total_duration_sec := 30,
       avg_session_time_in_min := (1 : ℚ) / 4 } : AvgRow).total_sessions =
      (((baseDF [sampleA, sampleB, sampleC]).filter
          (fun e => decide (e.ip = "10.0.0.1"))).map
        (fun e => e.session_id)).dedup.length :=
  ((avgSession_correct [sampleA, sampleB, sampleC]).2
    { ip := "10.0.0.1", total_sessions := 2, total_duration_sec := 30,
      avg_session_time_in_min := (1 : ℚ) / 4 } (by decide)).1

/-- C6: the Unique-URL Aggregator emits, per session, the number of distinct
URL values (second whitespace token of the request) among that session's
events, not the total event count: five events on one URL give 1, five events
on five distinct URLs give 5. -/
theorem uniqueURL_distinct (events : List LogEvent) :
    (∀ r ∈ uniqueURLDF events,
        r.2 = (((baseDF events).filter (fun e => decide (e.session_id = r.1))).filterMap
          (fun e => extractUrl e.request)).dedup.length) ∧
    uniqueURLDF sameUrlEvents = [("20150722-06-0015-10-0-0-1", 1)] ∧
    uniqueURLDF distinctUrlEvents = [("20150722-06-0015-10-0-0-1", 5)] := by
  refine ⟨?_, by decide, by decide⟩
  intro r hr
  obtain ⟨hk, hv⟩ := mem_groupRows.1 (mem_sortBy.1 hr)
  exact hv

/-- Witness for C6: the five-same-URL row of the scenario counts one distinct
URL among its session's events. -/
theorem uniqueURL_distinct_witness :
    (1 : Nat) = (((baseDF sameUrlEvents).filter
        (fun e => decide (e.session_id = "20150722-06-0015-10-0-0-1"))).filterMap
      (fun e => extractUrl e.request)).dedup.length :=
  (uniqueURL_distinct sameUrlEvents).1 ("20150722-06-0015-10-0-0-1", 1) (by decide)

theorem groupRows_pair_same {α κ β : Type} [DecidableEq κ] (key : α → κ)
    (agg : List α → β) (a b : α) (h : key b = key a) :
    groupRows key agg [a, b] = [(key a, agg [a, b])] := by
  have h1 : ([key a, key b] : List κ).dedup = [key a] := by
    rw [h, List.dedup_cons_of_mem (List.mem_cons_self _ _),
      List.dedup_cons_of_not_mem (List.not_mem_nil _), List.dedup_nil]
  have h2 : [a, b].filter (fun e => decide (key e = key a)) = [a, b] := by
    rw [List.filter_cons_of_pos (by simp), List.filter_cons_of_pos (by simp [h])]
    rfl
  simp only [groupRows, groupKeys, List.map_cons, List.map_nil, h1, h2]

set_option maxRecDepth 40000 in
unseal Rat.mul Rat.inv Rat.add Rat.sub in
/-- C7: the Engagement Aggregator keys groups by
(ip ++ underscore ++ SHA-256(user_agent), session_id) and emits
duration_min = (max − min timestamp seconds) / 60: two events with the same ip,
user agent, and session window form a single group whose duration_min is
(t2 − t1) / 60, while two events differing only in user agent (sampleB vs
sampleB2) fall into two distinct user groups. -/
theorem engagement_correct (e1 e2 : LogEvent)
    (hip : extractIp e2.client_port = extractIp e1.client_port)
    (hua : e2.user_agent = e1.user_agent)
    (hsid : getSessionId e2.timestamp (extractIp e2.client_port) =
            getSessionId e1.timestamp (extractIp e1.client_port))
    (hle : e1.timestamp.toSec ≤ e2.timestamp.toSec) :
    mostEngaugedDF [e1, e2] =
      [(extractIp e1.client_port ++ "_" ++ sha256hex e1.user_agent,
        getSessionId e1.timestamp (extractIp e1.client_port),
        (((e2.timestamp.toSec : Int) - (e1.timestamp.toSec : Int) : Int) : ℚ) / 60)] ∧
    ((mostEngaugedDF [sampleB, sampleB2]).map (fun r => r.1)).dedup.length = 2 := by
  constructor
  · have hkey : (fun e : TaggedEvent => (userKey e, e.session_id)) (tagEvent e2) =
        (fun e : TaggedEvent => (userKey e, e.session_id)) (tagEvent e1) := by
      simp only [tagEvent, userKey]
      rw [hsid, hip, hua]
    have hgr := groupRows_pair_same (fun e : TaggedEvent => (userKey e, e.session_id))
      (fun g => ((listMax (secsOf g) - listMin (secsOf g) : Int) : ℚ) / 60)
      (tagEvent e1) (tagEvent e2) hkey
    have hmax : listMax (secsOf [tagEvent e1, tagEvent e2]) = (e2.timestamp.toSec : Int) := by
      simp only [secsOf, List.map_cons, List.map_nil, listMax, List.foldl]
      exact max_eq_right (by exact_mod_cast hle)
    have hmin : listMin (secsOf [tagEvent e1, tagEvent e2]) = (e1.timestamp.toSec : Int) := by
      simp only [secsOf, List.map_cons, List.map_nil, listMin, List.foldl]
      exact min_eq_left (by exact_mod_cast hle)
    unfold mostEngaugedDF
    rw [show baseDF [e1, e2] = [tagEvent e1, tagEvent e2] from rfl, hgr]
    simp only [List.map_cons, List.map_nil, sortBy, List.foldr, insertSorted]
    rw [hmax, hmin]
    rfl
  · decide

-- Witness for C7: applies the theorem to the scenario's first two events.
set_option maxRecDepth 40000 in
unseal Rat.mul Rat.inv Rat.add Rat.sub in
theorem engagement_correct_witness :
    mostEngaugedDF [sampleA, sampleB] =
      [(extractIp sampleA.client_port ++ "_" ++ sha256hex sampleA.user_agent,
        getSessionId sampleA.timestamp (extractIp sampleA.client_port),
        (((sampleB.timestamp.toSec : Int) - (sampleA.timestamp.toSec : Int) : Int) : ℚ) / 60)] :=
  (engagement_correct sampleA sampleB (by decide) rfl (by decide) (by decide)).1

/-- C8: the division by total_sessions in the Session-Duration Aggregator is
never a division by zero: every output row has total_sessions at least 1,
because an ip row exists only when that ip has at least one session group. -/
theorem avg_total_sessions_pos (events : List LogEvent) (r : AvgRow)
    (hr : r ∈ avgSessionStatsDF events) : 1 ≤ r.total_sessions := by
  obtain ⟨q, hq, hqr⟩ := List.mem_map.1 (mem_sortBy.1 hr)
  obtain ⟨hk, hv⟩ := mem_groupRows.1 hq
  subst hqr
  show 1 ≤ q.2.1
  rw [hv]
  exact filter_key_pos (List.mem_dedup.1 hk)

-- Witness for C8: the scenario's single output row has 2 ≥ 1 sessions.
set_option maxRecDepth 40000 in
unseal Rat.mul Rat.inv Rat.add Rat.sub in
theorem avg_total_sessions_pos_witness :
    1 ≤ ({ ip := "10.0.0.1", total_sessions := 2, total_duration_sec := 30,
           avg_session_time_in_min := (1 : ℚ) / 4 } : AvgRow).total_sessions :=
  avg_total_sessions_pos [sampleA, sampleB, sampleC]
    { ip := "10.0.0.1", total_sessions := 2, total_duration_sec := 30,
      avg_session_time_in_min := (1 : ℚ) / 4 } (by decide)

/-- C9: an event whose request has fewer than 2 whitespace tokens does not
abort the Unique-URL Aggregator: its url degrades to the null placeholder
`none` and the aggregation still emits a row for the event's session. -/
theorem malformed_request_total (events : List LogEvent) (e : LogEvent)
    (he : e ∈ events) (hm : (splitOnChar ' ' e.request).length < 2) :
    extractUrl e.request = none ∧
    ∃ n : Nat, ((tagEvent e).session_id, n) ∈ uniqueURLDF events := by
  have hurl : extractUrl e.request = none := by
    unfold extractUrl
    exact List.getElem?_eq_none (by omega)
  refine ⟨hurl, ?_⟩
  have hk : (tagEvent e).session_id ∈ (baseDF events).map (fun x => x.session_id) :=
    List.mem_map.2 ⟨tagEvent e, List.mem_map.2 ⟨e, he, rfl⟩, rfl⟩
  exact ⟨_, mem_sortBy.2 (groupRows_mem_of_key hk)⟩

-- Witness for C9: a one-token request event keeps the aggregation total.
theorem malformed_request_total_witness :
    extractUrl sampleMalformed.request = none ∧
    ∃ n : Nat, ((tagEvent sampleMalformed).session_id, n) ∈
      uniqueURLDF [sampleA, sampleMalformed] :=
  malformed_request_total [sampleA, sampleMalformed] sampleMalformed
    (by decide) (by decide)

theorem filterMap_filter_isSome {α β : Type} (f : α → Option β) (p : α → Bool)
    (l : List α) :
    (l.filter (fun e => p e && (f e).isSome)).filterMap f = (l.filter p).filterMap f := by
  induction l with
  | nil => rfl
  | cons x xs ih =>
    by_cases hp : p x
    · cases hf : f x with
      | none => simp [List.filter_cons, hp, hf, List.filterMap_cons, ih]
      | some b => simp [List.filter_cons, hp, hf, List.filterMap_cons, ih]
    · simp [List.filter_cons, hp, ih]

/-- C10: a request with fewer than 2 whitespace tokens yields url `none`;
null urls are excluded from the distinct count entirely (each row's count can
be taken over only the events whose url is non-null), and a session all of
whose events are malformed appears with num_unique_hits = 0. -/
theorem null_url_excluded (events : List LogEvent) (sid : String)
    (hs : sid ∈ (baseDF events).map (fun e => e.session_id))
    (hall : ∀ e ∈ baseDF events, e.session_id = sid → extractUrl e.request = none) :
    (∀ req : String, (splitOnChar ' ' req).length < 2 → extractUrl req = none) ∧
    (sid, 0) ∈ uniqueURLDF events ∧
    (∀ r ∈ uniqueURLDF events,
        r.2 = (((baseDF events).filter (fun e =>
            decide (e.session_id = r.1) && (extractUrl e.request).isSome)).filterMap
          (fun e => extractUrl e.request)).dedup.length) := by
  refine ⟨?_, ?_, ?_⟩
  · intro req hm
    unfold extractUrl
    exact List.getElem?_eq_none (by omega)
  · have h0 : ((baseDF events).filter
        (fun e => decide (e.session_id = sid))).filterMap
          (fun e => extractUrl e.request) = [] := by
      rw [List.filterMap_eq_nil_iff]
      intro e he
      have hme := List.mem_filter.1 he
      exact hall e hme.1 (by simpa using hme.2)
    have hmem := @groupRows_mem_of_key TaggedEvent String Nat _
      (fun e : TaggedEvent => e.session_id)
      (fun g => ((g.filterMap (fun e => extractUrl e.request)).dedup).length)
      (baseDF events) sid hs
    apply mem_sortBy.2
    simpa [h0] using hmem
  · intro r hr
    obtain ⟨hk, hv⟩ := mem_groupRows.1 (mem_sortBy.1 hr)
    rw [hv, filterMap_filter_isSome (fun e => extractUrl e.request)
      (fun e => decide (e.session_id = r.1)) (baseDF events)]

-- Witness for C10: a session consisting of one malformed event gets count 0.
theorem null_url_excluded_witness :
    ("20150722-06-0015-10-0-0-1", 0) ∈ uniqueURLDF [sampleMalformed] :=
  (null_url_excluded [sampleMalformed] "20150722-06-0015-10-0-0-1"
    (by decide) (by decide)).2.1

end Weblog
